import Mathlib

/-!
Verification of the transitled display driver (`src/main.py`): a shallow
embedding of its data model and pure core operations, with theorems checking
the natural-language specification's claims against the code.

Conventions of the embedding:
* timestamps are modelled as integers (seconds since epoch); Python's
  `floor(x / 60)` on an integer difference is `Int.fdiv _ 60`;
* Python dict/JSON payload shapes become structures;
* Python exceptions (e.g. the IndexError raised by indexing an empty list)
  become `Option` results;
* stateful methods become explicit state-passing functions.
-/

namespace TransitLED

/-- `self.rgb_options.cols` in `TransitDisplayDriver.__init__` (main.py:122). -/
def cols : Int := 64

/-- `self.font_width` (main.py:132). -/
def font_width : Int := 6

/-- `self.train_length` (main.py:142). -/
def train_length : Nat := 5

/-- `self.train_slowdown_factor` (main.py:143). -/
def train_slowdown_factor : Nat := 10

/-!
## C1: `expected_times_to_display_str` (main.py:292-299)

```python
if len(expected_times) == 0:
    return 'N/A'
now = time()
three_expected_times = expected_times[:3]
return ','.join([str(max(0, floor((expected_time - now) / 60))) for expected_time in three_expected_times])
```
-/

/-- The per-entry minutes value `max(0, floor((expected_time - now) / 60))`. -/
def minutes_entry (now expected_time : Int) : Int :=
  max 0 ((expected_time - now).fdiv 60)

/-- `TransitDisplayDriver.expected_times_to_display_str` (main.py:292-299),
with `now` passed explicitly instead of read from the wall clock. -/
def expected_times_to_display_str (now : Int) (expected_times : List Int) : String :=
  if expected_times.length = 0 then "N/A"
  else String.intercalate ","
    ((expected_times.take 3).map (fun expected_time => toString (minutes_entry now expected_time)))

/-!
## C2: the offset-update logic of `draw_text_scroll` (main.py:265-290)

```python
if offset <= -font_width * len(text):       # if all characters have been scrolled off
    return self.rgb_options.cols            # reset offset to the right side
else:
    return offset - 1                       # scroll to the left by 1 pixel
```
The drawing calls have no effect on the returned offset; the tick function
below is the value returned and fed back on the next render tick.
-/

/-- The scroll-offset update performed by `draw_text_scroll` each tick, for a
text of `textLen` characters (main.py:287-290). -/
def draw_text_scroll (textLen : Nat) (offset : Int) : Int :=
  if offset ≤ -font_width * textLen then cols
  else offset - 1

/-- `self.top_text_scroll_offset` initial value: "start with text off screen"
(main.py:150). -/
def top_text_scroll_offset : Int := cols

end TransitLED


namespace TransitLED

/-- C1: for every prediction list, the display string is `"N/A"` when the list
is empty, and otherwise the comma-joined minutes-until-arrival
`max(0, floor((arrival_ts - now)/60))` of the first three entries only, never
negative; in particular predictions `[now+125, now+305, now+650]` yield
`"2,5,10"`. -/
theorem display_str_spec (now : Int) (l : List Int) :
    (l = [] → expected_times_to_display_str now l = "N/A")
    ∧ (l ≠ [] → expected_times_to_display_str now l =
        String.intercalate ","
          ((l.take 3).map (fun t => toString (max 0 ((t - now).fdiv 60)))))
    ∧ (∀ t, 0 ≤ minutes_entry now t)
    ∧ expected_times_to_display_str now [now + 125, now + 305, now + 650] = "2,5,10" := by
  refine ⟨fun h => by simp [h, expected_times_to_display_str], fun h => ?_,
    fun t => le_max_left _ _, ?_⟩
  · simp [expected_times_to_display_str, minutes_entry, h]
  · have h1 : now + 125 - now = 125 := by ring
    have h2 : now + 305 - now = 305 := by ring
    have h3 : now + 650 - now = 650 := by ring
    simp only [expected_times_to_display_str, minutes_entry, List.length_cons, List.take,
      List.map, h1, h2, h3]
    rfl

/-- Witness for C1: both hypothesis branches evaluated at concrete inputs. -/
theorem display_str_spec_witness :
    expected_times_to_display_str 0 ([] : List Int) = "N/A"
    ∧ expected_times_to_display_str 0 [125] =
        String.intercalate ","
          ((([125] : List Int).take 3).map (fun t => toString (max 0 ((t - 0).fdiv 60)))) :=
  ⟨(display_str_spec 0 []).1 rfl, (display_str_spec 0 [125]).2.1 (by decide)⟩

/-- Auxiliary for C2: before any reset, the offset decreases by one per tick. -/
lemma scroll_iter_eq (n : Nat) : ∀ k, k ≤ 64 + 6 * n → (draw_text_scroll n)^[k] 64 = 64 - k := by
  intro k
  induction k with
  | zero => simp
  | succ k ih =>
    intro hk
    rw [Function.iterate_succ_apply', ih (by omega), draw_text_scroll]
    rw [if_neg (by unfold font_width; omega)]
    push_cast
    ring

/-- C2 counterexample: for a one-character alert text (pixel-length
`L = 6 × 1 = 6`), after `64 + L = 70` ticks from offset `64` the offset is
`-6`, not yet reset back to `64` (the reset lands one tick later). -/
theorem scroll_cycle_counterexample :
    (draw_text_scroll 1)^[64 + 6 * 1] 64 = -6
    ∧ ¬ ((draw_text_scroll 1)^[64 + 6 * 1] 64 = 64) := by
  constructor
  · rw [scroll_iter_eq 1 _ le_rfl]; rfl
  · rw [scroll_iter_eq 1 _ le_rfl]; decide

/-- C2 amended: starting from `offset = 64`, each tick resets the offset to
`64` when `offset ≤ -(charWidth × textLength)` and otherwise decrements it by
one; the offset is first back at `64` after exactly `64 + L + 1` ticks (not
`64 + L`), where `L = 6 × textLen`. -/
theorem scroll_cycle (n : Nat) :
    (∀ offset : Int, draw_text_scroll n offset =
      if offset ≤ -(6 * (n : Int)) then 64 else offset - 1)
    ∧ (draw_text_scroll n)^[64 + 6 * n + 1] 64 = 64
    ∧ ∀ k, 0 < k → k < 64 + 6 * n + 1 → (draw_text_scroll n)^[k] 64 ≠ 64 := by
  refine ⟨fun offset => ?_, ?_, fun k hk hk' => ?_⟩
  · simp only [draw_text_scroll, font_width, cols]
    norm_num
  · rw [Function.iterate_succ_apply', scroll_iter_eq n _ le_rfl, draw_text_scroll,
      if_pos (by unfold font_width; omega)]
    rfl
  · rw [scroll_iter_eq n k (by omega)]
    omega

/-- Witness for C2 amended: the full cycle and a mid-cycle tick, at
`textLen = 1`. -/
theorem scroll_cycle_witness :
    (draw_text_scroll 1)^[64 + 6 * 1 + 1] 64 = 64
    ∧ (draw_text_scroll 1)^[5] 64 ≠ 64 :=
  ⟨(scroll_cycle 1).2.1, (scroll_cycle 1).2.2 5 (by decide) (by decide)⟩

end TransitLED

namespace TransitLED

/-!
## C3: `draw_train_animation` (main.py:247-263)

```python
now = time()
secs_last_updated = max(0, round(now - self.prediction_data_last_updated))
self.train_slowdown_counter = (self.train_slowdown_counter + 1) % self.train_slowdown_factor
if self.train_slowdown_counter == 0:
    self.train_color = self.train_default_color
    if secs_last_updated >= self.train_stale_secs:
        self.train_pos = 35 if self.train_pos == 34 else 34
    else:
        self.train_pos = (self.train_pos + 1) % (65 + self.train_length)
        if secs_last_updated < 2:
            self.train_color = self.train_updated_color
```
-/

/-- The two colors the train marker can take: `self.train_default_color` and
`self.train_updated_color` (main.py:139-140). -/
inductive TrainColor where
  | defaultColor
  | updatedColor
deriving DecidableEq, Repr

/-- The render-loop state mutated by `draw_train_animation`
(main.py:161-163). -/
structure TrainState where
  train_color : TrainColor
  train_pos : Nat
  train_slowdown_counter : Nat
deriving DecidableEq, Repr

/-- `TransitDisplayDriver.draw_train_animation` (main.py:247-263), restricted
to its state update (the drawing call does not affect state); `now` and the
freshness timestamp are explicit integer arguments. -/
def draw_train_animation (train_stale_secs : Int) (now prediction_data_last_updated : Int)
    (s : TrainState) : TrainState :=
  let secs_last_updated := max 0 (now - prediction_data_last_updated)
  let counter := (s.train_slowdown_counter + 1) % train_slowdown_factor
  if counter = 0 then
    if secs_last_updated ≥ train_stale_secs then
      { train_color := TrainColor.defaultColor,
        train_pos := if s.train_pos = 34 then 35 else 34,
        train_slowdown_counter := counter }
    else
      { train_color := if secs_last_updated < 2 then TrainColor.updatedColor
                       else TrainColor.defaultColor,
        train_pos := (s.train_pos + 1) % (65 + train_length),
        train_slowdown_counter := counter }
  else
    { s with train_slowdown_counter := counter }

/-- C3 counterexample: on a wrap tick with fresh-enough data and
`train_pos = 68`, the code advances the marker to `69`, whereas wrapping
modulo `screenWidth + markerLength = 64 + 5 = 69` as claimed would give
`(68 + 1) % 69 = 0`; the code's modulus is `65 + train_length = 70`. -/
theorem train_modulus_counterexample :
    (draw_train_animation 120 10 0 ⟨.defaultColor, 68, 9⟩).train_pos = 69
    ∧ ¬ ((draw_train_animation 120 10 0 ⟨.defaultColor, 68, 9⟩).train_pos
          = (68 + 1) % (64 + train_length))
    ∧ (draw_train_animation 120 10 0 ⟨.defaultColor, 68, 9⟩).train_pos
        = (68 + 1) % (65 + train_length) := by
  decide

/-- C3 amended: on every render tick where the slowdown counter wraps to
zero, with `secs_stale = max 0 (now - prediction_data_last_updated)`: if
`secs_stale ≥ staleThreshold` the marker alternates between positions 34 and
35 instead of advancing (color stays default); otherwise it advances by one
pixel wrapping modulo `65 + markerLength = 70` (not modulo
`screenWidth + markerLength = 69`), and its color is the fresh color iff
`secs_stale < 2`; with threshold 120, staleness 119 advances and 121
shakes. -/
theorem train_animation (threshold now ts : Int) (s : TrainState)
    (hwrap : (s.train_slowdown_counter + 1) % train_slowdown_factor = 0) :
    (max 0 (now - ts) ≥ threshold →
      (draw_train_animation threshold now ts s).train_pos
        = (if s.train_pos = 34 then 35 else 34)
      ∧ (draw_train_animation threshold now ts s).train_color = TrainColor.defaultColor)
    ∧ (max 0 (now - ts) < threshold →
      (draw_train_animation threshold now ts s).train_pos = (s.train_pos + 1) % (65 + train_length)
      ∧ ((draw_train_animation threshold now ts s).train_color = TrainColor.updatedColor
          ↔ max 0 (now - ts) < 2))
    ∧ (draw_train_animation 120 119 0 s).train_pos = (s.train_pos + 1) % (65 + train_length)
    ∧ (draw_train_animation 120 121 0 s).train_pos = (if s.train_pos = 34 then 35 else 34) := by
  refine ⟨fun hstale => ?_, fun hfresh => ?_, ?_, ?_⟩
  · simp [draw_train_animation, hwrap, hstale]
  · simp only [draw_train_animation, hwrap, if_pos, if_neg (not_le.mpr hfresh)]
    constructor
    · simp
    · split_ifs with h2
      · simp [h2]
      · simp [h2]
  · simp [draw_train_animation, hwrap]
  · simp [draw_train_animation, hwrap]

/-- Witness for C3 amended: a wrap tick with completely fresh data at
`train_pos = 0`. -/
theorem train_animation_witness :
    (draw_train_animation 120 0 0 ⟨.defaultColor, 0, 9⟩).train_pos = (0 + 1) % (65 + train_length)
    ∧ ((draw_train_animation 120 0 0 ⟨.defaultColor, 0, 9⟩).train_color = TrainColor.updatedColor
        ↔ max 0 ((0 : Int) - 0) < 2) :=
  (train_animation 120 0 0 ⟨.defaultColor, 0, 9⟩ (by decide)).2.1 (by decide)

end TransitLED

namespace TransitLED

/-!
## C4, C5: the alert pipeline of `fetch_alerts` (main.py:306-333)

```python
alerts = [entity['Alert'] for entity in alerts_raw['Entities']]
stop_to_alert_data = {stop.line: [alert['HeaderText']['Translations'] for alert in alerts
                                  if any(period['Start'] <= now <= period['End']
                                         for period in alert['ActivePeriods'])
                                  and stop.stop_code in [ie['StopId']
                                                         for ie in alert['InformedEntities']
                                                         if 'StopId' in ie]]
                      for stop in self.stops}
stop_to_alert_strs = {stop: [next((t['Text'] for t in alert
                                   if t['Language'] == 'en'
                                   and not any(ignored_text in t['Text']
                                               for ignored_text in self.ignored_alert_text)), None)
                             for alert in alert_data]
                      for stop, alert_data in stop_to_alert_data.items()}
stop_to_alert_strs = {stop: [a for a in alert_str if a is not None] for stop, alert_str in stop_to_alert_strs.items()}
```
-/

/-- One entry of a raw alert's `HeaderText.Translations` list. -/
structure Translation where
  Language : String
  Text : String
deriving DecidableEq, Repr

/-- One entry of a raw alert's `ActivePeriods` list. -/
structure ActivePeriod where
  Start : Int
  End : Int
deriving DecidableEq, Repr

/-- One entry of a raw alert's `InformedEntities` list; `StopId = none` models
a dict without the `'StopId'` key. -/
structure InformedEntity where
  StopId : Option String
deriving DecidableEq, Repr

/-- A raw alert's `HeaderText` object. -/
structure HeaderText where
  Translations : List Translation
deriving DecidableEq, Repr

/-- A raw alert entity, with the fields `fetch_alerts` reads. -/
structure Alert where
  ActivePeriods : List ActivePeriod
  InformedEntities : List InformedEntity
  HeaderText : HeaderText
deriving DecidableEq, Repr

/-- The per-alert condition of the first comprehension (main.py:315-319):
some active period contains `now` (inclusive both ends), and the stop code is
among the informed entities' stop ids. -/
def alert_passes_filter (now : Int) (stop_code : String) (alert : Alert) : Bool :=
  (alert.ActivePeriods.any fun period => decide (period.Start ≤ now) && decide (now ≤ period.End))
    && (alert.InformedEntities.filterMap InformedEntity.StopId).contains stop_code

/-- Python's substring containment `pat in s`, on character lists. -/
def containsSub (pat : List Char) : List Char → Bool
  | [] => pat.isEmpty
  | c :: t => pat.isPrefixOf (c :: t) || containsSub pat t

/-- Python's `pat in s` on strings. -/
def str_in (pat s : String) : Bool := containsSub pat.data s.data

/-- The `next(...)` selection of the second comprehension (main.py:322-325):
the first translation that is English and whose text contains no ignored
substring, its text, or `None`. -/
def select_alert_str (ignored_alert_text : List String) (translations : List Translation) :
    Option String :=
  (translations.find? fun t => t.Language == "en"
      && !(ignored_alert_text.any fun ignored_text => str_in ignored_text t.Text)).map
    Translation.Text

/-- `stop_to_alert_data` of `fetch_alerts` for one stop (main.py:314-320). -/
def stop_to_alert_data (now : Int) (stop_code : String) (alerts : List Alert) :
    List (List Translation) :=
  (alerts.filter (alert_passes_filter now stop_code)).map
    (fun alert => alert.HeaderText.Translations)

/-- The full per-stop pipeline of `fetch_alerts` (main.py:312-329): period and
stop filter, English-text selection, and removal of the `None` entries. -/
def fetch_alerts_for_stop (now : Int) (stop_code : String) (ignored_alert_text : List String)
    (alerts : List Alert) : List String :=
  ((stop_to_alert_data now stop_code alerts).map (select_alert_str ignored_alert_text)).filterMap
    id

/-- A concrete alert with one active period `[100, 200]` and stop id `"S"`,
for the boundary checks of C4. -/
def alert_100_200 : Alert := ⟨[⟨100, 200⟩], [⟨some "S"⟩], ⟨[⟨"en", "delay"⟩]⟩⟩

/-- C4: an alert survives the filter iff some active period satisfies
`start ≤ now ≤ end` (inclusive both ends) and the informed-entity stop-id set
contains the line's stop code; with period `[100, 200]` it is included at
`now = 150` and excluded at `now = 99` and `now = 201`. -/
theorem alert_filter_spec (now : Int) (stop_code : String) (alerts : List Alert) (a : Alert) :
    (a ∈ alerts.filter (alert_passes_filter now stop_code) ↔
      a ∈ alerts ∧ ((∃ p ∈ a.ActivePeriods, p.Start ≤ now ∧ now ≤ p.End)
        ∧ stop_code ∈ a.InformedEntities.filterMap InformedEntity.StopId))
    ∧ alert_passes_filter 150 "S" alert_100_200 = true
    ∧ alert_passes_filter 99 "S" alert_100_200 = false
    ∧ alert_passes_filter 201 "S" alert_100_200 = false := by
  refine ⟨?_, by decide, by decide, by decide⟩
  rw [List.mem_filter]
  simp [alert_passes_filter]

/-- The claim's notion of "the alert's English-language text": the first
translation whose language is `"en"` (with no ignored-substring condition). -/
def english_text (translations : List Translation) : Option String :=
  (translations.find? fun t => t.Language == "en").map Translation.Text

/-- A concrete alert with two English translations, the first containing an
ignored substring, for the C5 counterexample. -/
def alert_two_en : Alert := ⟨[⟨0, 1000⟩], [⟨some "S"⟩], ⟨[⟨"en", "bad news"⟩, ⟨"en", "ok"⟩]⟩⟩

/-- C5 counterexample: this alert's English-language text `"bad news"`
contains the configured ignored substring `"bad"` and the alert passes the
period/stop filter, yet it is NOT excluded: the selection skips to the second
English translation and outputs `"ok"`. -/
theorem ignored_alert_counterexample :
    english_text alert_two_en.HeaderText.Translations = some "bad news"
    ∧ str_in "bad" "bad news" = true
    ∧ alert_passes_filter 50 "S" alert_two_en = true
    ∧ fetch_alerts_for_stop 50 "S" ["bad"] [alert_two_en] = ["ok"] := by
  decide

/-- Specification-level substring containment: `pat` occurs contiguously
somewhere in `s`. -/
def IsSubstr (pat s : String) : Prop := ∃ l r, s.data = l ++ pat.data ++ r

/-- `containsSub` decides contiguous containment. -/
lemma containsSub_iff (pat : List Char) :
    ∀ hay, containsSub pat hay = true ↔ ∃ l r, hay = l ++ pat ++ r := by
  intro hay
  induction hay with
  | nil =>
    simp only [containsSub, List.isEmpty_iff]
    constructor
    · rintro rfl
      exact ⟨[], [], rfl⟩
    · rintro ⟨l, r, h⟩
      rcases List.append_eq_nil.mp ((List.append_eq_nil.mp h.symm).1) with ⟨-, h2⟩
      exact h2
  | cons c t ih =>
    simp only [containsSub, Bool.or_eq_true, ih, List.isPrefixOf_iff_prefix]
    constructor
    · rintro (⟨r, hr⟩ | ⟨l, r, rfl⟩)
      · exact ⟨[], r, by simp [hr]⟩
      · exact ⟨c :: l, r, by simp⟩
    · rintro ⟨l, r, h⟩
      match l, h with
      | [], h => exact Or.inl ⟨r, by simpa using h.symm⟩
      | x :: l', h =>
        rw [List.cons_append, List.cons_append, List.cons.injEq] at h
        exact Or.inr ⟨l', r, h.2⟩

/-- `str_in` agrees with specification-level substring containment. -/
lemma str_in_iff (pat s : String) : str_in pat s = true ↔ IsSubstr pat s :=
  containsSub_iff pat.data s.data

/-- C5 amended: an alert that passes the period/stop filter contributes a
string iff some English translation's text avoids every configured ignored
substring (case-sensitive, any position) — not iff its first English text is
clean; the selected string is the first qualifying English translation's
text, alerts without English text are dropped, and the surviving strings
appear in original source order (the output is an order-preserving
projection of the source list). -/
theorem alert_text_selection (now : Int) (stop_code : String) (ignored : List String)
    (alerts : List Alert) (a : Alert) :
    ((select_alert_str ignored a.HeaderText.Translations).isSome ↔
      ∃ t ∈ a.HeaderText.Translations, t.Language = "en" ∧ ∀ ig ∈ ignored, ¬ IsSubstr ig t.Text)
    ∧ ((∀ t ∈ a.HeaderText.Translations, t.Language ≠ "en") →
        select_alert_str ignored a.HeaderText.Translations = none)
    ∧ fetch_alerts_for_stop now stop_code ignored alerts
        = (alerts.filter (alert_passes_filter now stop_code)).filterMap
            (fun al => select_alert_str ignored al.HeaderText.Translations)
    ∧ (fetch_alerts_for_stop now stop_code ignored alerts).Sublist
        (alerts.filterMap (fun al => select_alert_str ignored al.HeaderText.Translations)) := by
  have heq : fetch_alerts_for_stop now stop_code ignored alerts
      = (alerts.filter (alert_passes_filter now stop_code)).filterMap
          (fun al => select_alert_str ignored al.HeaderText.Translations) := by
    simp only [fetch_alerts_for_stop, stop_to_alert_data, List.filterMap_map]
    rfl
  refine ⟨?_, fun hnoen => ?_, heq, ?_⟩
  · simp [select_alert_str, List.find?_isSome, str_in_iff, and_assoc]
  · simp only [select_alert_str, Option.map_eq_none', List.find?_eq_none]
    intro x hx
    simp [hnoen x hx]
  · rw [heq]
    exact (List.filter_sublist _).filterMap _

/-- Witness for C5 amended: a Spanish-only alert is dropped. -/
theorem alert_text_selection_witness :
    select_alert_str ["bad"]
      (Alert.mk [] [] (HeaderText.mk [Translation.mk "es" "hola"])).HeaderText.Translations
      = none :=
  (alert_text_selection 0 "S" ["bad"] []
    (Alert.mk [] [] (HeaderText.mk [Translation.mk "es" "hola"]))).2.1 (by decide)

end TransitLED

namespace TransitLED

/-!
## C6, C8: `SF511API` key rotation (main.py:15-30)

```python
def __init__(self, api_keys, agency):
    self.api_key = api_keys
    self.api_key_lock = threading.Lock()
    self.api_key_counter = 0
    self.agency = agency

def next_api_key(self):
    with self.api_key_lock:
        api_key = self.api_key[self.api_key_counter]
        self.api_key_counter = (self.api_key_counter + 1) % len(self.api_key)
        return api_key
```
The lock makes each read-then-advance atomic; a sequence of calls is thus
modelled by sequential state passing on the counter. Indexing an empty (or
too-short) list raises IndexError, modelled as `none`.
-/

/-- The state of `SF511API` (main.py:16-20); the constructor performs no
validation of `api_keys`. -/
structure SF511API where
  api_key : List String
  api_key_counter : Nat
  agency : String
deriving DecidableEq, Repr

/-- `SF511API.__init__` (main.py:16-20). It cannot fail. -/
def SF511API_init (api_keys : List String) (agency : String) : SF511API :=
  { api_key := api_keys, api_key_counter := 0, agency := agency }

/-- One call of `SF511API.next_api_key` (main.py:22-30): the returned key and
the advanced counter, or `none` for the IndexError on an out-of-range
index. -/
def next_api_key (api_key : List String) (api_key_counter : Nat) : Option (String × Nat) :=
  if h : api_key_counter < api_key.length then
    some (api_key.get ⟨api_key_counter, h⟩, (api_key_counter + 1) % api_key.length)
  else none

/-- `n` successive `next_api_key` calls from counter `c`: the keys returned
and the final counter (stopping if a call raises). -/
def next_api_key_run (api_key : List String) : Nat → Nat → (List String × Nat)
  | c, 0 => ([], c)
  | c, Nat.succ n =>
    match next_api_key api_key c with
    | none => ([], c)
    | some (k, c') => (k :: (next_api_key_run api_key c' n).1, (next_api_key_run api_key c' n).2)

/-- An in-range call returns the indexed key and advances the counter. -/
lemma run_succ_of_lt (keys : List String) (c n : Nat) (hc : c < keys.length) :
    next_api_key_run keys c (n + 1)
      = (keys.get ⟨c, hc⟩ :: (next_api_key_run keys ((c + 1) % keys.length) n).1,
         (next_api_key_run keys ((c + 1) % keys.length) n).2) := by
  simp only [next_api_key_run, next_api_key, dif_pos hc]

/-- From counter `c`, the remaining `length - c` calls return the remaining
keys in order and wrap the counter to `0`. -/
lemma run_from (keys : List String) :
    ∀ n c, (hc : c < keys.length) → n = keys.length - c →
      next_api_key_run keys c n = (keys.drop c, 0) := by
  intro n
  induction n with
  | zero => intro c hc h0; omega
  | succ n ih =>
    intro c hc hn
    rw [run_succ_of_lt keys c n hc]
    have hdrop : keys.drop c = keys.get ⟨c, hc⟩ :: keys.drop (c + 1) := by
      rw [List.drop_eq_getElem_cons hc]
      rfl
    by_cases hend : c + 1 = keys.length
    · have hn0 : n = 0 := by omega
      have hmod : (c + 1) % keys.length = 0 := by rw [hend]; exact Nat.mod_self _
      rw [hn0, hmod, hdrop, List.drop_eq_nil_of_le (by omega)]
      rfl
    · have hlt : c + 1 < keys.length := by omega
      have hmod : (c + 1) % keys.length = c + 1 := Nat.mod_eq_of_lt hlt
      rw [hmod, ih (c + 1) hlt (by omega), hdrop]

/-- A failing call leaves the run empty with the counter unchanged. -/
lemma run_stuck (keys : List String) (c : Nat) (h : next_api_key keys c = none) :
    ∀ b, next_api_key_run keys c b = ([], c) := by
  intro b
  cases b with
  | zero => rfl
  | succ b => simp only [next_api_key_run, h]

/-- Runs split additively: `a + b` calls are `a` calls then `b` calls from
the resulting counter. -/
lemma run_add (keys : List String) (b : Nat) :
    ∀ a c, next_api_key_run keys c (a + b)
      = ((next_api_key_run keys c a).1
          ++ (next_api_key_run keys (next_api_key_run keys c a).2 b).1,
         (next_api_key_run keys (next_api_key_run keys c a).2 b).2) := by
  intro a
  induction a with
  | zero => intro c; simp [next_api_key_run]
  | succ a ih =>
    intro c
    rw [Nat.succ_add]
    rcases hk : next_api_key keys c with - | ⟨k, c'⟩
    · have h1 : ∀ m, next_api_key_run keys c (m + 1) = ([], c) := fun m => by
        simp only [next_api_key_run, hk]
      rw [h1 (a + b), h1 a]
      rw [run_stuck keys c hk b]
      rfl
    · simp only [next_api_key_run, hk, ih c']
      rw [List.cons_append]

/-- C6: for every non-empty key pool of size N, 2N successive `next_api_key`
calls from the initial counter yield the pool twice over in list order (so
with distinct keys, each key exactly twice, none skipped, none repeated
before a cycle completes), and the counter returns to its start. -/
theorem key_rotation (keys : List String) (h : keys ≠ []) :
    (next_api_key_run keys 0 (2 * keys.length)).1 = keys ++ keys
    ∧ (next_api_key_run keys 0 (2 * keys.length)).2 = 0
    ∧ (keys.Nodup → ∀ k ∈ keys, (next_api_key_run keys 0 (2 * keys.length)).1.count k = 2) := by
  have hlen : 0 < keys.length := List.length_pos.mpr h
  have hcycle : next_api_key_run keys 0 keys.length = (keys, 0) := by
    have := run_from keys keys.length 0 hlen (by omega)
    simpa using this
  have h2 : next_api_key_run keys 0 (2 * keys.length) = (keys ++ keys, 0) := by
    rw [two_mul, run_add keys keys.length keys.length 0]
    simp [hcycle]
  refine ⟨by rw [h2], by rw [h2], fun hnd k hk => ?_⟩
  rw [h2]
  simp only [List.count_append]
  rw [List.count_eq_one_of_mem hnd hk]

/-- Witness for C6: the two-key pool `["a", "b"]`. -/
theorem key_rotation_witness :
    (next_api_key_run ["a", "b"] 0 (2 * (["a", "b"] : List String).length)).1
      = ["a", "b"] ++ ["a", "b"]
    ∧ (next_api_key_run ["a", "b"] 0 (2 * (["a", "b"] : List String).length)).1.count "a" = 2 :=
  ⟨(key_rotation ["a", "b"] (by decide)).1,
   (key_rotation ["a", "b"] (by decide)).2.2 (by decide) "a" (by decide)⟩

/-- C8 counterexample: with an empty key list, `SF511API.__init__` succeeds
and builds a state — no `ConfigurationError` is raised and nothing fails at
startup (no such exception exists in the code); the failure only surfaces on
the first `next_api_key` call, as an empty-list IndexError. -/
theorem empty_key_pool_counterexample :
    SF511API_init [] "SF" = { api_key := [], api_key_counter := 0, agency := "SF" }
    ∧ next_api_key (SF511API_init [] "SF").api_key (SF511API_init [] "SF").api_key_counter
        = none := by
  constructor
  · rfl
  · rfl

/-- C8 amended: constructing `SF511API` with an empty key list succeeds
without any validation; every subsequent `next_api_key` call on the empty
pool fails (IndexError), i.e. the error surfaces at the first fetch, not at
startup, and not as a `ConfigurationError`. -/
theorem empty_key_pool (agency : String) :
    SF511API_init [] agency
        = { api_key := [], api_key_counter := 0, agency := agency }
    ∧ ∀ c, next_api_key ([] : List String) c = none := by
  refine ⟨rfl, fun c => ?_⟩
  simp [next_api_key]

end TransitLED

namespace TransitLED

/-!
## C7: the two-row lock idiom of `get_prediction_strs` (main.py:207-212)

```python
with self.prediction_time_locks[self.stops[0].line] and self.prediction_time_locks[self.stops[1].line]:
    top_str = self.expected_times_to_display_str(self.prediction_times[self.stops[0].line])
    bottom_str = self.expected_times_to_display_str(self.prediction_times[self.stops[1].line])
```
A Python `with e:` statement enters exactly the one context manager `e`
evaluates to. `a and b` evaluates to `b` when `a` is truthy, and a
`threading.Lock` object is always truthy, so the expression above evaluates
to the second row's lock object alone.
-/

/-- A `threading.Lock` object of `self.prediction_time_locks`, identified by
the line it guards (main.py:101). -/
inductive LockRef where
  | prediction_time_lock : String → LockRef
deriving DecidableEq, Repr

/-- Python truthiness of a `threading.Lock` object: always truthy. -/
def lock_truthy (_ : LockRef) : Bool := true

/-- Python's `a and b` on lock objects: `b` if `a` is truthy, else `a`. -/
def py_and (a b : LockRef) : LockRef := if lock_truthy a then b else a

/-- The context managers entered by the `with` statement of
`get_prediction_strs` (main.py:209): the single value of the expression
`locks[stops[0].line] and locks[stops[1].line]`. -/
def get_prediction_strs_locks (line0 line1 : String) : List LockRef :=
  [py_and (LockRef.prediction_time_lock line0) (LockRef.prediction_time_lock line1)]

/-- C7 failing behavior: with rows `"N"` (top) and `"J"` (bottom), the paired
read acquires only the bottom row's lock; the top row's lock is not held, so
a fetch write to row `"N"` can be in flight during the read — the claimed
lock-both-then-read discipline is not what the code does. -/
theorem two_row_lock_acquisition :
    get_prediction_strs_locks "N" "J" = [LockRef.prediction_time_lock "J"]
    ∧ LockRef.prediction_time_lock "N" ∉ get_prediction_strs_locks "N" "J"
    ∧ py_and (LockRef.prediction_time_lock "N") (LockRef.prediction_time_lock "J")
        = LockRef.prediction_time_lock "J" := by
  decide

/-!
## C9: the parse-and-store of `fetch_and_parse_predictions` (main.py:354-362)

```python
expected_times = [datetime.fromisoformat(time_str).timestamp() for time_str in expected_visit_time_strs if time_str is not None]
with self.prediction_time_locks[line]:
    self.prediction_times[line] = expected_times
```
Each visit's `ExpectedArrivalTime` is modelled as `none` (JSON null) or the
parsed timestamp; the ISO-string decoding itself is external I/O shape. The
comprehension filters the nulls and keeps payload order; no sort is applied
before the store.
-/

/-- The sequence `fetch_and_parse_predictions` writes to
`self.prediction_times[line]`: the payload's non-null expected arrival
times, in payload order (main.py:354-362). -/
def fetch_and_parse_predictions (expected_visit_times : List (Option Int)) : List Int :=
  expected_visit_times.filterMap id

/-- C9 counterexample: a payload whose visits arrive as `[200, 100]` is
stored as `[200, 100]`, which is not sorted ascending — the code never
sorts. -/
theorem predictions_sorted_counterexample :
    fetch_and_parse_predictions [some 200, some 100] = [200, 100]
    ∧ ¬ List.Sorted (· ≤ ·) (fetch_and_parse_predictions [some 200, some 100]) := by
  refine ⟨rfl, ?_⟩
  simp [fetch_and_parse_predictions, List.sorted_cons]

/-- C9 amended: the stored sequence is the payload's non-null arrival times
in payload order (a fully non-null payload is stored verbatim), and it is
sorted ascending exactly when the payload's non-null entries are pairwise
ascending — sortedness is inherited from the upstream API, not established
by the code. -/
theorem predictions_store_order (visits : List (Option Int)) :
    (List.Sorted (· ≤ ·) (fetch_and_parse_predictions visits)
      ↔ List.Pairwise (fun a b => ∀ x ∈ a, ∀ y ∈ b, x ≤ y) visits)
    ∧ ∀ ts : List Int, fetch_and_parse_predictions (ts.map some) = ts := by
  constructor
  · rw [fetch_and_parse_predictions, List.Sorted, List.pairwise_filterMap]
    simp
  · intro ts
    simp [fetch_and_parse_predictions]

/-!
## C10: whole-map alert commits and paired reads (main.py:199-205, 331-333)

```python
with self.alert_data_lock:
    self.alert_data_last_updated = time()
    self.alerts = stop_to_alert_strs
...
with self.alert_data_lock:
    top_alert_str = " / ".join(self.alerts[self.stops[0].line])
    bottom_alert_str = " / ".join(self.alerts[self.stops[1].line])
```
Writer and reader guard their critical sections with the same
`alert_data_lock`, so an execution interleaves whole critical sections: it
is a sequence of committed whole-map writes, with each read seeing the store
left by the writes before it.
-/

/-- The shared alert state guarded by `alert_data_lock`
(main.py:106-108). -/
structure AlertStore where
  alerts : String → List String
  alert_data_last_updated : Int

/-- The critical section of `fetch_alerts` (main.py:331-333): one completed
cycle's whole map and freshness stamp replace both fields at once. -/
def fetch_alerts_commit (stop_to_alert_strs : String → List String) (now : Int)
    (_ : AlertStore) : AlertStore :=
  { alerts := stop_to_alert_strs, alert_data_last_updated := now }

/-- The critical section of `get_alert_strs` (main.py:199-205): both rows'
alert lists joined with `" / "`, read from the same store state, returned as
`(bottom, top)` for rows `line0 = stops[0].line`, `line1 = stops[1].line`. -/
def get_alert_strs (line0 line1 : String) (s : AlertStore) : String × String :=
  (String.intercalate " / " (s.alerts line1), String.intercalate " / " (s.alerts line0))

/-- After any sequence of commits the store holds exactly the last commit's
map and stamp. -/
lemma commit_foldl (writes : List ((String → List String) × Int)) (s₀ : AlertStore)
    (h : writes ≠ []) :
    writes.foldl (fun s w => fetch_alerts_commit w.1 w.2 s) s₀
      = { alerts := (writes.getLast h).1, alert_data_last_updated := (writes.getLast h).2 } := by
  induction writes generalizing s₀ with
  | nil => exact absurd rfl h
  | cons w ws ih =>
    rw [List.foldl_cons]
    rcases eq_or_ne ws [] with rfl | hws
    · rfl
    · rw [ih _ hws, List.getLast_cons hws]

/-- C10: after any sequence of completed alert-fetch commits, the store's map
is a single whole map `m` — the initial one or one written together with its
cycle's freshness stamp by one single commit — and a `get_alert_strs` read
returns both rows' strings computed from that same `m`: the two rows can
never come from different alert-fetch cycles. -/
theorem alert_read_single_cycle (writes : List ((String → List String) × Int))
    (s₀ : AlertStore) (line0 line1 : String) :
    ∃ m : String → List String,
      (writes.foldl (fun s w => fetch_alerts_commit w.1 w.2 s) s₀).alerts = m
      ∧ ((writes = [] ∧ m = s₀.alerts)
        ∨ ∃ w ∈ writes, m = w.1
            ∧ (writes.foldl (fun s w => fetch_alerts_commit w.1 w.2 s) s₀).alert_data_last_updated
                = w.2)
      ∧ get_alert_strs line0 line1 (writes.foldl (fun s w => fetch_alerts_commit w.1 w.2 s) s₀)
          = (String.intercalate " / " (m line1), String.intercalate " / " (m line0)) := by
  rcases eq_or_ne writes [] with rfl | hw
  · exact ⟨s₀.alerts, rfl, Or.inl ⟨rfl, rfl⟩, rfl⟩
  · refine ⟨(writes.getLast hw).1, ?_, Or.inr ⟨writes.getLast hw, List.getLast_mem hw, rfl, ?_⟩,
      ?_⟩
    · rw [commit_foldl writes s₀ hw]
    · rw [commit_foldl writes s₀ hw]
    · rw [commit_foldl writes s₀ hw]
      rfl

end TransitLED
